import Mathlib

/-!
Verification of the ConfGuide clinical-trial annotation app.

Shallow embedding of `prepare_data.py` (the Assignment Planner:
`load_and_prepare_data`) and `streamlit_app.py` (the Completion Tracker and
Submission Recorder glue: `get_done_uids`, `combined_done` / `remaining_data`,
`append_to_gsheet`, the content area and the submit handler).

Python's `random.seed` / `random.shuffle` are embedded by a faithful
MT19937 implementation (CPython's `init_by_array` seeding, `getrandbits`,
`_randbelow_with_getrandbits` rejection sampling, Fisher-Yates loop), and
`hashlib.sha256` by a full SHA-256 implementation, so that the seed
derivation `int(sha256(username).hexdigest(), 16) % 2**32` is modelled
exactly.  Machine integers are `Nat` with explicit `% 2^32` at the points
where CPython's uint32 arithmetic wraps.
-/

namespace ConfGuide

/-- 2^32, the modulus of all MT19937 / SHA-256 word arithmetic. -/
def two32 : Nat := 4294967296

/-! ### MT19937 (CPython `_randommodule.c`) -/

/-- Mersenne-Twister generator state: 624 32-bit words plus the cursor. -/
structure MTState where
  mt : Array Nat
  idx : Nat

/-- `init_genrand(s)`: the base state initialisation. -/
def init_genrand (s : Nat) : Array Nat :=
  let mt0 := (Array.mkArray 624 0).set! 0 (s % two32)
  (List.range' 1 623).foldl
    (fun m i =>
      let prev := m.get! (i - 1)
      m.set! i ((1812433253 * (prev ^^^ (prev >>> 30)) + i) % two32))
    mt0

/-- `init_by_array(key)`: the seeding routine used by `random.seed(int)`. -/
def init_by_array (key : List Nat) : Array Nat :=
  let keyLen := key.length
  let mtA := init_genrand 19650218
  let step1 := fun (st : Array Nat × Nat × Nat) (_ : Nat) =>
    let (m, i, j) := st
    let prev := m.get! (i - 1)
    let v := ((m.get! i ^^^ (((prev ^^^ (prev >>> 30)) * 1664525) % two32))
              + key.getD j 0 + j) % two32
    let m := m.set! i v
    let i := i + 1
    let j := j + 1
    let (m, i) := if i ≥ 624 then ((m.set! 0 (m.get! 623)), 1) else (m, i)
    let j := if j ≥ keyLen then 0 else j
    (m, i, j)
  let (mtB, i, _) := (List.range (max 624 keyLen)).foldl step1 (mtA, 1, 0)
  let step2 := fun (st : Array Nat × Nat) (_ : Nat) =>
    let (m, i) := st
    let prev := m.get! (i - 1)
    let v := ((m.get! i ^^^ (((prev ^^^ (prev >>> 30)) * 1566083941) % two32))
              + two32 - i) % two32
    let m := m.set! i v
    let i := i + 1
    if i ≥ 624 then ((m.set! 0 (m.get! 623)), 1) else (m, i)
  let (mtC, _) := (List.range 623).foldl step2 (mtB, i)
  mtC.set! 0 0x80000000

/-- `random.seed(a)` for an int `a` in `[0, 2^32)`: key is the single
32-bit word of `|a|`. -/
def pySeed (a : Nat) : MTState :=
  { mt := init_by_array [a % two32], idx := 624 }

/-- The twist step regenerating all 624 words, performed in place exactly as
in the C code (later entries read already-updated earlier entries). -/
def twist (mt : Array Nat) : Array Nat :=
  (List.range 624).foldl
    (fun m i =>
      let y := (m.get! i &&& 0x80000000) ||| (m.get! ((i + 1) % 624) &&& 0x7fffffff)
      let v := m.get! ((i + 397) % 624) ^^^ (y >>> 1) ^^^
        (if y % 2 = 1 then 0x9908b0df else 0)
      m.set! i v)
    mt

/-- The MT19937 output tempering. -/
def temper (y : Nat) : Nat :=
  let y := y ^^^ (y >>> 11)
  let y := y ^^^ ((y <<< 7) &&& 0x9d2c5680)
  let y := y ^^^ ((y <<< 15) &&& 0xefc60000)
  y ^^^ (y >>> 18)

/-- `genrand_uint32`: one 32-bit output plus the successor state. -/
def genrand (g : MTState) : Nat × MTState :=
  let g := if g.idx ≥ 624 then { mt := twist g.mt, idx := 0 } else g
  (temper (g.mt.get! g.idx), { mt := g.mt, idx := g.idx + 1 })

/-- `getrandbits(k)` for `k ≤ 32` (the only case the shuffle loop uses):
the top `k` bits of one generator word. -/
def getrandbits (k : Nat) (g : MTState) : Nat × MTState :=
  let p := genrand g
  (p.1 >>> (32 - k), p.2)

/-- Python `int.bit_length`. -/
def bit_length (n : Nat) : Nat := if n = 0 then 0 else Nat.log2 n + 1

/-- The rejection loop of `_randbelow_with_getrandbits`, with fuel bounding
the number of draws (the Python loop is unbounded but terminates with
probability 1; the fuel-exhaustion fallback `0` keeps the result in
`[0, n)` for `n > 0`). -/
def randbelowLoop (n k : Nat) : Nat → MTState → Nat × MTState
  | 0, g => (0, g)
  | fuel + 1, g =>
    let p := getrandbits k g
    if p.1 < n then p else randbelowLoop n k fuel p.2

/-- `Random._randbelow(n)`: a value in `[0, n)` by rejection sampling on
`bit_length n` bits. -/
def randbelow (n : Nat) (g : MTState) : Nat × MTState :=
  randbelowLoop n (bit_length n) 64 g

/-- Exchange `x[i]` and `x[j]` (Python `x[i], x[j] = x[j], x[i]`); identity
when an index is out of range (the shuffle loop only produces in-range
indices). -/
def listSwap (x : List α) (i j : Nat) : List α :=
  if h : i < x.length ∧ j < x.length then
    (x.set i (x.get ⟨j, h.2⟩)).set j (x.get ⟨i, h.1⟩)
  else x

/-- One iteration of the `random.shuffle` loop body:
`j = _randbelow(i + 1); x[i], x[j] = x[j], x[i]`. -/
def shuffleStep (st : List α × MTState) (i : Nat) : List α × MTState :=
  let p := randbelow (i + 1) st.2
  (listSwap st.1 i p.1, p.2)

/-- `random.shuffle(x)`: `for i in reversed(range(1, len(x)))`, swap
`x[i]` with `x[_randbelow(i+1)]`. -/
def pyShuffle (x : List α) (g : MTState) : List α × MTState :=
  ((List.range' 1 (x.length - 1)).reverse).foldl shuffleStep (x, g)

/-! ### SHA-256 (`hashlib.sha256`) -/

/-- Right rotation of a 32-bit word. -/
def rotr (x n : Nat) : Nat := ((x >>> n) ||| (x <<< (32 - n))) % two32

/-- The 64 SHA-256 round constants (in decimal). -/
def shaK : List Nat :=
  [1116352408, 1899447441, 3049323471, 3921009573,
   961987163, 1508970993, 2453635748, 2870763221,
   3624381080, 310598401, 607225278, 1426881987,
   1925078388, 2162078206, 2614888103, 3248222580,
   3835390401, 4022224774, 264347078, 604807628,
   770255983, 1249150122, 1555081692, 1996064986,
   2554220882, 2821834349, 2952996808, 3210313671,
   3336571891, 3584528711, 113926993, 338241895,
   666307205, 773529912, 1294757372, 1396182291,
   1695183700, 1986661051, 2177026350, 2456956037,
   2730485921, 2820302411, 3259730800, 3345764771,
   3516065817, 3600352804, 4094571909, 275423344,
   430227734, 506948616, 659060556, 883997877,
   958139571, 1322822218, 1537002063, 1747873779,
   1955562222, 2024104815, 2227730452, 2361852424,
   2428436474, 2756734187, 3204031479, 3329325298]

/-- The SHA-256 initial hash value (in decimal). -/
def shaH0 : List Nat :=
  [1779033703, 3144134277, 1013904242, 2773480762,
   1359893119, 2600822924, 528734635, 1541459225]

/-- SHA padding: `0x80`, zeros to 56 mod 64, then the bit length as eight
big-endian bytes. -/
def shaPad (msg : List Nat) : List Nat :=
  let bitLen := 8 * msg.length
  let zeros := (119 - (msg.length % 64)) % 64
  msg ++ [0x80] ++ List.replicate zeros 0 ++
    ((List.range 8).map (fun i => (bitLen >>> (8 * (7 - i))) % 256))

/-- The `i`-th 64-byte block of the padded message, as 16 big-endian words. -/
def shaBlockWords (padded : List Nat) (i : Nat) : Array Nat :=
  ((List.range 16).map (fun t =>
    let b := fun o => padded.getD (64 * i + 4 * t + o) 0
    b 0 * 16777216 + b 1 * 65536 + b 2 * 256 + b 3)).toArray

/-- Extend 16 message words to the 64-word schedule. -/
def shaSchedule (w : Array Nat) : Array Nat :=
  (List.range' 16 48).foldl
    (fun w t =>
      let x15 := w.get! (t - 15)
      let x2 := w.get! (t - 2)
      let s0 := rotr x15 7 ^^^ rotr x15 18 ^^^ (x15 >>> 3)
      let s1 := rotr x2 17 ^^^ rotr x2 19 ^^^ (x2 >>> 10)
      w.push ((w.get! (t - 16) + s0 + w.get! (t - 7) + s1) % two32))
    w

/-- One 64-round compression of a block into the running hash (a list of
eight words). -/
def shaCompress (h : List Nat) (blockW : Array Nat) : List Nat :=
  let w := shaSchedule blockW
  let step := fun (v : List Nat) (t : Nat) =>
    let a := v.getD 0 0
    let b := v.getD 1 0
    let c := v.getD 2 0
    let d := v.getD 3 0
    let e := v.getD 4 0
    let f := v.getD 5 0
    let g := v.getD 6 0
    let hh := v.getD 7 0
    let s1 := rotr e 6 ^^^ rotr e 11 ^^^ rotr e 25
    let ch := (e &&& f) ^^^ ((e ^^^ (two32 - 1)) &&& g)
    let t1 := (hh + s1 + ch + shaK.getD t 0 + w.get! t) % two32
    let s0 := rotr a 2 ^^^ rotr a 13 ^^^ rotr a 22
    let maj := (a &&& b) ^^^ (a &&& c) ^^^ (b &&& c)
    let t2 := (s0 + maj) % two32
    [(t1 + t2) % two32, a, b, c, (d + t1) % two32, e, f, g]
  let v := (List.range 64).foldl step h
  (List.range 8).map (fun i => (h.getD i 0 + v.getD i 0) % two32)

/-- SHA-256 digest of a byte sequence, as the 256-bit big-endian natural
number (exactly `int(sha256(m).hexdigest(), 16)`). -/
def sha256Nat (msg : List Nat) : Nat :=
  let padded := shaPad msg
  let blocks := padded.length / 64
  let h := (List.range blocks).foldl
    (fun h i => shaCompress h (shaBlockWords padded i)) shaH0
  h.foldl (fun acc w => acc * two32 + w) 0

/-- UTF-8 encoding of one character (`str.encode`). -/
def utf8Char (c : Char) : List Nat :=
  let n := c.toNat
  if n < 0x80 then [n]
  else if n < 0x800 then
    [0xC0 ||| (n >>> 6), 0x80 ||| (n &&& 0x3F)]
  else if n < 0x10000 then
    [0xE0 ||| (n >>> 12), 0x80 ||| ((n >>> 6) &&& 0x3F), 0x80 ||| (n &&& 0x3F)]
  else
    [0xF0 ||| (n >>> 18), 0x80 ||| ((n >>> 12) &&& 0x3F),
     0x80 ||| ((n >>> 6) &&& 0x3F), 0x80 ||| (n &&& 0x3F)]

/-- `username.encode()`: UTF-8 bytes of a string. -/
def utf8Bytes (s : String) : List Nat := s.data.flatMap utf8Char

/-! ### Data model (`prepare_data.py`) -/

/-- One element of `clinical_guidance.results`: a labelled finding with the
"reasons for/against presence" texts. -/
structure GuidanceResult where
  label : String
  reasonsFor : Option String
  reasonsAgainst : Option String
deriving DecidableEq

/-- The metadata dict of an input entry, with the two keys the app reads
(`.get` accesses, so both may be absent). -/
structure Metadata where
  image_path : Option String
  flagged_pathologies : Option (List String)
deriving DecidableEq

/-- One entry of `human_trial.json` as the app reads it. -/
structure Entry where
  data : Option Metadata
  metadata : Option Metadata
  clinical_guidance : Option (List GuidanceResult)
deriving DecidableEq

/-- The empty dict default of `entry.get("metadata", {})`. -/
def emptyMetadata : Metadata := { image_path := none, flagged_pathologies := none }

/-- `core_metadata = entry.get("data", entry.get("metadata", {}))`. -/
def core_metadata (e : Entry) : Metadata :=
  e.data.getD (e.metadata.getD emptyMetadata)

/-- `os.path.basename`: the part after the last `/`. -/
def basename (p : String) : String :=
  { data := p.data.foldl (fun acc c => if c = '/' then [] else acc ++ [c]) [] }

/-- `os.path.basename(core_metadata.get("image_path", ""))`. -/
def entryFilename (e : Entry) : String :=
  basename ((core_metadata e).image_path.getD "")

/-- `{res['label']: res for res in entry.get('clinical_guidance', {}).get('results', [])}`
as an association list built in order (dict semantics: on duplicate labels
the later binding wins, see `dictGet`). -/
def guidance_map (e : Entry) : List (String × GuidanceResult) :=
  (e.clinical_guidance.getD []).map (fun r => (r.label, r))

/-- Python dict lookup on the association-list model: latest binding wins. -/
def dictGet (m : List (String × GuidanceResult)) (k : String) : Option GuidanceResult :=
  m.reverse.lookup k

/-- One prepared task: an element of `prepared_data`. -/
structure TaskRec where
  uid : String
  mode : String
  metadata : Metadata
  guidance : List (String × GuidanceResult)
deriving DecidableEq

/-- The Blind task appended for an entry. -/
def blindTask (e : Entry) : TaskRec :=
  { uid := "blind_" ++ entryFilename e, mode := "Blind",
    metadata := core_metadata e, guidance := guidance_map e }

/-- The Guided task appended for an entry. -/
def guidedTask (e : Entry) : TaskRec :=
  { uid := "guided_" ++ entryFilename e, mode := "Guided",
    metadata := core_metadata e, guidance := guidance_map e }

/-- The loop of `load_and_prepare_data`: `samples = samples[:10]`, then for
each entry append the Blind and then the Guided version. -/
def prepareEntries (samples : List Entry) : List TaskRec :=
  (samples.take 10).flatMap (fun e => [blindTask e, guidedTask e])

/-- `seed_value = int(hashlib.sha256(username.encode()).hexdigest(), 16) % (2**32)`. -/
def seed_value (username : String) : Nat :=
  sha256Nat (utf8Bytes username) % two32

/-- The ambient interpreter state the script can reach: the global `random`
generator and the wall clock. -/
structure Env where
  rng : MTState
  clock : Nat

/-- `load_and_prepare_data(username)` over already-parsed file contents:
build `prepared_data`, then `random.seed(seed_value)` (which replaces the
whole global generator state) and `random.shuffle(prepared_data)`. -/
def load_and_prepare_data (username : String) (samples : List Entry) (env : Env) :
    List TaskRec × Env :=
  let prepared := prepareEntries samples
  let g0 := pySeed (seed_value username)
  let res := pyShuffle prepared g0
  (res.1, { env with rng := res.2 })

/-- `load_and_prepare_data` including the `open` / `json.load` boundary: the
function body wraps neither in `try`, so a read or parse failure propagates
to the caller unchanged instead of producing a task list. -/
def load_and_prepare_data_from_file (username : String)
    (fileContents : Except String (List Entry)) (env : Env) :
    Except String (List TaskRec × Env) :=
  match fileContents with
  | .error e => .error e
  | .ok samples => .ok (load_and_prepare_data username samples env)

/-! ### Completion Tracker and Submission Recorder glue (`streamlit_app.py`) -/

/-- One record of the `Annotations` worksheet as `get_all_records` returns
it, restricted to the two columns the tracker reads. -/
structure AnnRow where
  annotator : String
  uid : String
deriving DecidableEq

/-- `get_done_uids(user)`: wraps the whole remote read in `try`/bare
`except` returning `set()`, else filters the records by annotator and
collects the uid column as a set. -/
def get_done_uids (user : String) (remote : Except String (List AnnRow)) :
    Finset String :=
  match remote with
  | .error _ => ∅
  | .ok rows =>
    if rows = [] then ∅
    else ((rows.filter (fun r => r.annotator == user)).map (fun r => r.uid)).toFinset

/-- `combined_done = done_uids.union(st.session_state.locally_finished)`. -/
def combined_done (done_uids locally_finished : Finset String) : Finset String :=
  done_uids ∪ locally_finished

/-- `remaining_data = [d for d in all_data if d["uid"] not in combined_done]`. -/
def remaining_data (all_data : List TaskRec) (done : Finset String) : List TaskRec :=
  all_data.filter (fun d => decide (d.uid ∉ done))

/-- The content-area branch: either the completion banner or the first
outstanding task. -/
inductive ContentView where
  | allDone : ContentView
  | presentTask : TaskRec → ContentView
deriving DecidableEq

/-- `if not remaining_data: st.success(...) else: current_case = remaining_data[0]`. -/
def content_area (remaining : List TaskRec) : ContentView :=
  match remaining with
  | [] => .allDone
  | t :: _ => .presentTask t

/-- The fallible part of rendering a presented task: line 161 reads
`metadata["image_path"]` with a strict subscript (KeyError when absent);
the findings loop reads `metadata.get("flagged_pathologies", [])`. Returns
the flagged findings needing an answer. -/
def render_findings (t : TaskRec) : Except String (List String) :=
  match t.metadata.image_path with
  | none => .error "KeyError: image_path"
  | some _ => .ok (t.metadata.flagged_pathologies.getD [])

/-- A worksheet: its rows, row 1 being the header row. -/
structure Worksheet where
  rows : List (List String)
deriving DecidableEq

/-- What `append_to_gsheet` produces: the worksheet afterwards (`none` when
the remote raised and nothing was written), whether `st.error` ran, and the
value returned to the caller, which is always Python's `None`. -/
structure AppendEffect where
  sheet : Option Worksheet
  errorShown : Bool
  retVal : Unit
deriving DecidableEq

/-- The body of the `try` block of `append_to_gsheet`: read the header row;
if empty, write the row's keys as headers; extend the headers by any new
keys; append the row's values in header order (`""` for absent keys). -/
def append_to_gsheet_core (ws : Worksheet) (row_dict : List (String × String)) :
    Worksheet :=
  let headers0 := ws.rows.headD []
  let (headers1, ws1) :=
    if headers0 = [] then
      (row_dict.map (fun kv => kv.1),
       { rows := ws.rows ++ [row_dict.map (fun kv => kv.1)] })
    else (headers0, ws)
  let new_keys := (row_dict.map (fun kv => kv.1)).filter (fun k => decide (k ∉ headers1))
  let headers2 := headers1 ++ new_keys
  let ws2 : Worksheet :=
    if new_keys = [] then ws1 else { rows := headers2 :: ws1.rows.tail }
  let values := headers2.map (fun h => ((row_dict.reverse.lookup h).getD ""))
  { rows := ws2.rows ++ [values] }

/-- `append_to_gsheet(worksheet_name, row_dict)`: everything runs inside
`try`; any exception is caught, `st.error` is shown, and in every case the
function returns `None` — the caller cannot observe success or failure. -/
def append_to_gsheet (conn : Except String Worksheet)
    (row_dict : List (String × String)) : AppendEffect :=
  match conn with
  | .ok ws => { sheet := some (append_to_gsheet_core ws row_dict),
                errorShown := false, retVal := () }
  | .error _ => { sheet := none, errorShown := true, retVal := () }

/-- The per-session state the submit path touches. -/
structure SessionState where
  logged_in : Bool
  username : String
  locally_finished : Finset String
  start_time : Nat
deriving DecidableEq

/-- The effects of one press of "Confirm Findings & Proceed". -/
structure SubmitEffects where
  state : SessionState
  sheetAfter : Option Worksheet
  errorShown : Bool
deriving DecidableEq

/-- The submit handler (lines 209-229): build `result_row`, call
`append_to_gsheet`, then unconditionally `locally_finished.add(uid)` and
reset `start_time` — the local update does not depend on the append's
outcome, because the append reports none. -/
def submit_handler (s : SessionState) (current_case : TaskRec) (filename : String)
    (selections : List (String × String)) (now : Nat) (timestamp : String)
    (conn : Except String Worksheet) : SubmitEffects :=
  let duration := now - s.start_time
  let result_row : List (String × String) :=
    [("uid", current_case.uid), ("image_file", filename),
     ("annotator", s.username), ("mode", current_case.mode),
     ("duration_sec", toString duration), ("timestamp", timestamp)]
    ++ selections.map (fun kv => ("pathology_" ++ kv.1, kv.2))
  let app := append_to_gsheet conn result_row
  let s1 : SessionState :=
    { s with locally_finished := insert current_case.uid s.locally_finished,
             start_time := now }
  { state := s1, sheetAfter := app.sheet, errorShown := app.errorShown }

/-- The inputs of one submit-handler invocation. -/
structure SubmitInput where
  task : TaskRec
  filename : String
  selections : List (String × String)
  now : Nat
  timestamp : String
  conn : Except String Worksheet

/-- Run a sequence of submit-handler invocations from a session state. -/
def run_submits (s : SessionState) (steps : List SubmitInput) : SessionState :=
  steps.foldl
    (fun st i => (submit_handler st i.task i.filename i.selections i.now i.timestamp i.conn).state)
    s

/-! ### Concrete instances used by counterexamples and witnesses -/

/-- A minimal input entry with the given image path and flagged findings. -/
def sampleEntry (p : String) (findings : List String) : Entry :=
  { data := some { image_path := some p, flagged_pathologies := some findings },
    metadata := none, clinical_guidance := none }

/-- A concrete ambient state. -/
def env0 : Env := { rng := pySeed 0, clock := 0 }

/-- Eleven cases: one more than the planner's `samples[:10]` truncation keeps. -/
def samples11 : List Entry :=
  [sampleEntry "0.png" [], sampleEntry "1.png" [], sampleEntry "2.png" [],
   sampleEntry "3.png" [], sampleEntry "4.png" [], sampleEntry "5.png" [],
   sampleEntry "6.png" [], sampleEntry "7.png" [], sampleEntry "8.png" [],
   sampleEntry "9.png" [], sampleEntry "10.png" []]

/-- Two cases with distinct image paths sharing one basename, so their
derived `task_id`s collide. -/
def samplesDup : List Entry :=
  [sampleEntry "dir1/x.png" [], sampleEntry "dir2/x.png" []]

/-- A small well-formed case set (two cases, distinct basenames). -/
def samples2 : List Entry :=
  [sampleEntry "a.png" ["Effusion"], sampleEntry "b.png" []]

/-- A concrete case with zero flagged findings. -/
def e0 : Entry := sampleEntry "a.png" []

/-- A concrete task under submission. -/
def T1 : TaskRec :=
  { uid := "blind_a.png", mode := "Blind",
    metadata := { image_path := some "a.png", flagged_pathologies := some ["Effusion"] },
    guidance := [] }

/-- A concrete logged-in session with nothing completed yet. -/
def s0 : SessionState :=
  { logged_in := true, username := "alice", locally_finished := ∅, start_time := 0 }

/-- The effects of submitting `T1` from `s0` while the remote append raises. -/
def failedSubmitEffects : SubmitEffects :=
  submit_handler s0 T1 "a.png" [("Effusion", "Yes")] 5 "2026-01-01 00:00:00"
    (.error "network unreachable")

/-! ### Structural lemmas about the shuffle -/

/-- Moving the `m`-th element of a list to the front while writing `a` into
its slot is a permutation of putting `a` in front. -/
theorem cons_get_set_perm (t : List α) : ∀ (m : Nat) (hm : m < t.length) (a : α),
    List.Perm (t.get ⟨m, hm⟩ :: t.set m a) (a :: t) := by
  induction t with
  | nil => intro m hm a; simp at hm
  | cons b t2 ih =>
    intro m hm a
    cases m with
    | zero => exact List.Perm.swap a b t2
    | succ m =>
      have hm2 : m < t2.length := by simpa using hm
      have h1 : (b :: t2).get ⟨m + 1, hm⟩ = t2.get ⟨m, hm2⟩ := rfl
      have h2 : (b :: t2).set (m + 1) a = b :: t2.set m a := rfl
      rw [h1, h2]
      exact ((List.Perm.swap b (t2.get ⟨m, hm2⟩) (t2.set m a)).trans
        ((ih m hm2 a).cons b)).trans (List.Perm.swap a b t2)

/-- Exchanging two in-range elements by a double `set` permutes the list. -/
theorem set_set_swap_perm (l : List α) : ∀ (i j : Nat) (hi : i < l.length)
    (hj : j < l.length),
    List.Perm ((l.set i (l.get ⟨j, hj⟩)).set j (l.get ⟨i, hi⟩)) l := by
  induction l with
  | nil => intro i j hi hj; simp at hi
  | cons b t ih =>
    intro i j hi hj
    cases i with
    | zero =>
      cases j with
      | zero => exact List.Perm.refl _
      | succ j => exact cons_get_set_perm t j (by simpa using hj) b
    | succ i =>
      cases j with
      | zero => exact cons_get_set_perm t i (by simpa using hi) b
      | succ j => exact (ih i j (by simpa using hi) (by simpa using hj)).cons b

/-- `listSwap` always permutes. -/
theorem listSwap_perm (x : List α) (i j : Nat) : List.Perm (listSwap x i j) x := by
  unfold listSwap
  split
  · next h => exact set_set_swap_perm x i j h.1 h.2
  · exact List.Perm.refl x

/-- The Fisher-Yates fold permutes its list argument whatever the indices
and generator do. -/
theorem foldl_shuffleStep_perm (idxs : List Nat) :
    ∀ (x : List α) (g : MTState), List.Perm ((idxs.foldl shuffleStep (x, g)).1) x := by
  induction idxs with
  | nil => intro x g; exact List.Perm.refl x
  | cons i rest ih =>
    intro x g
    exact (ih (listSwap x i (randbelow (i + 1) g).1) (randbelow (i + 1) g).2).trans
      (listSwap_perm x i _)

/-- `random.shuffle` returns a permutation of its input. -/
theorem pyShuffle_perm (x : List α) (g : MTState) : List.Perm (pyShuffle x g).1 x :=
  foldl_shuffleStep_perm _ x g

/-- The planner's output is a permutation of the pre-shuffle task list. -/
theorem load_perm (u : String) (samples : List Entry) (env : Env) :
    List.Perm (load_and_prepare_data u samples env).1 (prepareEntries samples) := by
  show List.Perm (pyShuffle (prepareEntries samples) (pySeed (seed_value u))).1
    (prepareEntries samples)
  exact pyShuffle_perm _ _

/-! ### Structural lemmas about the pre-shuffle task list -/

/-- Two tasks are built per retained case. -/
theorem flatMap_pair_length (l : List Entry) :
    (l.flatMap (fun e => [blindTask e, guidedTask e])).length = 2 * l.length := by
  induction l with
  | nil => rfl
  | cons e rest ih =>
    simp only [List.flatMap_cons, List.length_append, List.length_cons, ih,
      List.length_nil]
    omega

/-- Appending to a fixed string on the left is injective. -/
theorem string_append_left_cancel {s t u : String} (h : s ++ t = s ++ u) : t = u := by
  apply String.ext
  have hd := congrArg String.data h
  simp only [String.data_append] at hd
  exact List.append_cancel_left hd

/-- A `blind_`-prefixed uid never equals a `guided_`-prefixed uid. -/
theorem blind_ne_guided (f g : String) : "blind_" ++ f ≠ "guided_" ++ g := by
  intro h
  have hd := congrArg String.data h
  simp only [String.data_append] at hd
  simp only [List.cons_append] at hd
  injection hd with hc _
  exact absurd hc (by decide)

/-- With pairwise-distinct filenames, the interleaved blind/guided uid list
has no duplicates. -/
theorem pair_uids_nodup (l : List Entry) (h : (l.map entryFilename).Nodup) :
    (l.flatMap (fun e =>
      ["blind_" ++ entryFilename e, "guided_" ++ entryFilename e])).Nodup := by
  induction l with
  | nil => simp
  | cons e rest ih =>
    rw [List.map_cons, List.nodup_cons] at h
    obtain ⟨hne, hrest⟩ := h
    rw [List.flatMap_cons]
    simp only [List.cons_append, List.nil_append]
    refine List.nodup_cons.mpr ⟨?_, List.nodup_cons.mpr ⟨?_, ih hrest⟩⟩
    · intro hmem
      rcases List.mem_cons.mp hmem with heq | hmem2
      · exact blind_ne_guided _ _ heq
      · rcases List.mem_flatMap.mp hmem2 with ⟨e2, he2, hpair⟩
        simp only [List.mem_cons, List.not_mem_nil, or_false] at hpair
        rcases hpair with heq2 | heq2
        · exact hne (List.mem_map.mpr
            ⟨e2, he2, (string_append_left_cancel heq2).symm⟩)
        · exact blind_ne_guided _ _ heq2
    · intro hmem
      rcases List.mem_flatMap.mp hmem with ⟨e2, he2, hpair⟩
      simp only [List.mem_cons, List.not_mem_nil, or_false] at hpair
      rcases hpair with heq2 | heq2
      · exact blind_ne_guided _ _ heq2.symm
      · exact hne (List.mem_map.mpr
          ⟨e2, he2, (string_append_left_cancel heq2).symm⟩)

/-- The uid column of the pre-shuffle task list. -/
theorem prepare_uids (l : List Entry) :
    (prepareEntries l).map TaskRec.uid
      = (l.take 10).flatMap (fun e =>
          ["blind_" ++ entryFilename e, "guided_" ++ entryFilename e]) := by
  simp [prepareEntries, List.map_flatMap, blindTask, guidedTask]

/-! ### Claim theorems -/

/-- C1: the claim says a failed append must leave `local_done` unchanged
with T still the head of the outstanding queue.  The code does the
opposite: `append_to_gsheet` swallows the exception, the handler adds T's
uid to `locally_finished` unconditionally, and T disappears from the
outstanding queue — the session even shows the "all done" banner when T was
the last task, although its answer was never stored. -/
theorem failed_append_marks_done_anyway :
    failedSubmitEffects.errorShown = true ∧
    failedSubmitEffects.sheetAfter = none ∧
    T1.uid ∈ failedSubmitEffects.state.locally_finished ∧
    remaining_data [T1] (combined_done ∅ failedSubmitEffects.state.locally_finished) = [] ∧
    content_area (remaining_data [T1]
      (combined_done ∅ failedSubmitEffects.state.locally_finished)) = ContentView.allDone := by
  decide

/-- C2: after a successful append for task T, T's uid is in
`locally_finished`, and it stays excluded from every subsequently computed
outstanding queue of the session — whatever further submissions happen and
however stale the remote done set is. -/
theorem append_success_not_represented (s : SessionState) (t : TaskRec) (fn : String)
    (sel : List (String × String)) (now : Nat) (ts : String) (ws : Worksheet)
    (later : List SubmitInput) (remote : Finset String) (all_data : List TaskRec) :
    t.uid ∈ (submit_handler s t fn sel now ts (.ok ws)).state.locally_finished ∧
    t.uid ∉ (remaining_data all_data (combined_done remote
        (run_submits (submit_handler s t fn sel now ts (.ok ws)).state
          later).locally_finished)).map TaskRec.uid := by
  have hmem : t.uid ∈ (submit_handler s t fn sel now ts (.ok ws)).state.locally_finished := by
    show t.uid ∈ insert t.uid s.locally_finished
    exact Finset.mem_insert_self _ _
  refine ⟨hmem, ?_⟩
  have hmono : ∀ (steps : List SubmitInput) (st : SessionState),
      st.locally_finished ⊆ (run_submits st steps).locally_finished := by
    intro steps
    induction steps with
    | nil => intro st; exact Finset.Subset.refl _
    | cons i rest ih =>
      intro st
      have h1 : st.locally_finished ⊆ (submit_handler st i.task i.filename
          i.selections i.now i.timestamp i.conn).state.locally_finished := by
        show st.locally_finished ⊆ insert i.task.uid st.locally_finished
        exact Finset.subset_insert _ _
      exact h1.trans (ih _)
  intro hin
  rcases List.mem_map.mp hin with ⟨d, hd, hud⟩
  have hd2 := (List.mem_filter.mp hd).2
  rw [decide_eq_true_eq] at hd2
  apply hd2
  have ht : t.uid ∈ (run_submits (submit_handler s t fn sel now ts
      (.ok ws)).state later).locally_finished := hmono later _ hmem
  show d.uid ∈ _ ∪ _
  rw [hud]
  exact Finset.mem_union_right _ ht

/-- C3 counterexample: the claim quantifies over every case set, but the
planner keeps only `samples[:10]` (eleven distinct cases yield 20 tasks,
not 22), and uids are derived from image basenames, so two distinct paths
sharing a basename collide. -/
theorem plan_claim_fails_as_stated :
    ¬ ((load_and_prepare_data "alice" samples11 env0).1.length = 2 * samples11.length) ∧
    ¬ (((load_and_prepare_data "alice" samplesDup env0).1.map TaskRec.uid).Nodup) := by
  constructor
  · intro h
    have h2 : (prepareEntries samples11).length = 2 * samples11.length :=
      ((load_perm "alice" samples11 env0).length_eq.symm).trans h
    exact absurd h2 (by decide)
  · intro h
    have h2 : ((prepareEntries samplesDup).map TaskRec.uid).Nodup :=
      ((load_perm "alice" samplesDup env0).map TaskRec.uid).nodup_iff.mp h
    exact absurd h2 (by decide)

/-- C3 (amended): for every case set of size at most 10 whose cases have
pairwise-distinct image basenames, the planner returns exactly 2n tasks
with pairwise-distinct task ids, and every case appears as its Blind task
and as its Guided task (exactly once each, since the uid column is
duplicate-free). -/
theorem plan_two_tasks_per_case (u : String) (samples : List Entry) (env : Env)
    (hn : samples.length ≤ 10)
    (hnd : (samples.map entryFilename).Nodup) :
    ((load_and_prepare_data u samples env).1.length = 2 * samples.length) ∧
    (((load_and_prepare_data u samples env).1.map TaskRec.uid).Nodup) ∧
    (∀ e ∈ samples, blindTask e ∈ (load_and_prepare_data u samples env).1 ∧
        guidedTask e ∈ (load_and_prepare_data u samples env).1) ∧
    (∀ t ∈ (load_and_prepare_data u samples env).1,
        ∃ e ∈ samples, t = blindTask e ∨ t = guidedTask e) := by
  have htake : samples.take 10 = samples := List.take_of_length_le hn
  have hperm := load_perm u samples env
  have hpe : prepareEntries samples
      = samples.flatMap (fun e => [blindTask e, guidedTask e]) := by
    unfold prepareEntries
    rw [htake]
  refine ⟨?_, ?_, ?_, ?_⟩
  · rw [hperm.length_eq, hpe, flatMap_pair_length]
  · rw [(hperm.map TaskRec.uid).nodup_iff, prepare_uids, htake]
    exact pair_uids_nodup samples hnd
  · intro e he
    constructor
    · exact hperm.mem_iff.mpr
        (by rw [hpe]; exact List.mem_flatMap.mpr ⟨e, he, by simp⟩)
    · exact hperm.mem_iff.mpr
        (by rw [hpe]; exact List.mem_flatMap.mpr ⟨e, he, by simp⟩)
  · intro t ht
    have h1 : t ∈ prepareEntries samples := hperm.mem_iff.mp ht
    rw [hpe] at h1
    rcases List.mem_flatMap.mp h1 with ⟨e, he, hp⟩
    simp only [List.mem_cons, List.not_mem_nil, or_false] at hp
    exact ⟨e, he, hp⟩

/-- Witness for C3 (amended) at a concrete two-case set. -/
theorem plan_two_tasks_per_case_witness :
    (samples2.length ≤ 10 ∧ (samples2.map entryFilename).Nodup) ∧
    (((load_and_prepare_data "alice" samples2 env0).1.length = 2 * samples2.length) ∧
     (((load_and_prepare_data "alice" samples2 env0).1.map TaskRec.uid).Nodup) ∧
     (∀ e ∈ samples2, blindTask e ∈ (load_and_prepare_data "alice" samples2 env0).1 ∧
         guidedTask e ∈ (load_and_prepare_data "alice" samples2 env0).1) ∧
     (∀ t ∈ (load_and_prepare_data "alice" samples2 env0).1,
         ∃ e ∈ samples2, t = blindTask e ∨ t = guidedTask e)) :=
  ⟨⟨by decide, by decide⟩,
   plan_two_tasks_per_case "alice" samples2 env0 (by decide) (by decide)⟩

/-- C4: the planner is a pure function of the user identity and the fixed
case sequence.  The ambient interpreter state (global `random` generator,
wall clock) is threaded explicitly, and the task ordering returned is
independent of it: `random.seed` overwrites the entire generator state with
a value derived only from the username before the shuffle, and the function
never reads the clock.  In particular two invocations return identical
orderings. -/
theorem plan_deterministic (u : String) (samples : List Entry) (e1 e2 : Env) :
    (load_and_prepare_data u samples e1).1 = (load_and_prepare_data u samples e2).1 :=
  rfl

/-- C5: the outstanding queue is the order filtered by the effective done
set: a sublist of the order (relative positions preserved) containing
exactly the tasks whose uid is not in `remote_done ∪ local_done`. -/
theorem outstanding_filters_preserving_order (order : List TaskRec)
    (remote localDone : Finset String) :
    (remaining_data order (combined_done remote localDone)).Sublist order ∧
    ∀ t : TaskRec, t ∈ remaining_data order (combined_done remote localDone) ↔
      t ∈ order ∧ t.uid ∉ remote ∪ localDone :=
  ⟨List.filter_sublist _, by
    intro t
    simp [remaining_data, combined_done, List.mem_filter]⟩

/-- C6: a failed remote read of the done set is recovered as the empty set,
and a user with no local completions then sees the full task list as
outstanding — never an error. -/
theorem read_failure_fail_open (user err : String) (order : List TaskRec) :
    get_done_uids user (.error err) = ∅ ∧
    remaining_data order (combined_done (get_done_uids user (.error err)) ∅) = order := by
  refine ⟨rfl, ?_⟩
  simp [remaining_data, combined_done, get_done_uids]

/-- C7: the presented task is always the head of the outstanding queue, and
an empty queue yields the distinguishable "all done" view, which is not the
task-presentation view of any task. -/
theorem current_task_head_or_done :
    (∀ (t : TaskRec) (rest : List TaskRec),
        content_area (t :: rest) = ContentView.presentTask t) ∧
    content_area [] = ContentView.allDone ∧
    ∀ t : TaskRec, ContentView.presentTask t ≠ ContentView.allDone :=
  ⟨fun _ _ => rfl, rfl, fun _ h => ContentView.noConfusion h⟩

/-- C8: a missing or malformed input file propagates out of the planner as
the distinct error it raised; it is never turned into a successful plan —
in particular not into an empty task list. -/
theorem load_failure_fatal (u e : String) (env : Env) :
    load_and_prepare_data_from_file u (.error e) env = .error e ∧
    ∀ (tasks : List TaskRec) (env2 : Env),
      load_and_prepare_data_from_file u (.error e) env ≠ .ok (tasks, env2) :=
  ⟨rfl, fun _ _ h => Except.noConfusion h⟩

/-- C9: a case with an image path but zero flagged findings flows through
planning (both tasks built), rendering (no KeyError, empty answer set) and
submission (sheet written, no error banner, task marked done) without any
raised error. -/
theorem empty_findings_no_crash (e : Entry) (p : String)
    (himg : (core_metadata e).image_path = some p)
    (hflag : (core_metadata e).flagged_pathologies = some []) :
    prepareEntries [e] = [blindTask e, guidedTask e] ∧
    render_findings (blindTask e) = .ok [] ∧
    render_findings (guidedTask e) = .ok [] ∧
    (∀ (s : SessionState) (fn : String) (now : Nat) (ts : String) (ws : Worksheet),
      (submit_handler s (blindTask e) fn [] now ts (.ok ws)).errorShown = false ∧
      (submit_handler s (blindTask e) fn [] now ts (.ok ws)).sheetAfter.isSome = true ∧
      (blindTask e).uid ∈
        (submit_handler s (blindTask e) fn [] now ts (.ok ws)).state.locally_finished) := by
  refine ⟨rfl, ?_, ?_, ?_⟩
  · simp [render_findings, blindTask, himg, hflag]
  · simp [render_findings, guidedTask, himg, hflag]
  · intro s fn now ts ws
    refine ⟨rfl, rfl, ?_⟩
    show (blindTask e).uid ∈ insert (blindTask e).uid s.locally_finished
    exact Finset.mem_insert_self _ _

/-- Witness for C9 at a concrete zero-findings case. -/
theorem empty_findings_no_crash_witness :
    ((core_metadata e0).image_path = some "a.png" ∧
     (core_metadata e0).flagged_pathologies = some []) ∧
    (prepareEntries [e0] = [blindTask e0, guidedTask e0] ∧
     render_findings (blindTask e0) = .ok [] ∧
     render_findings (guidedTask e0) = .ok [] ∧
     (∀ (s : SessionState) (fn : String) (now : Nat) (ts : String) (ws : Worksheet),
       (submit_handler s (blindTask e0) fn [] now ts (.ok ws)).errorShown = false ∧
       (submit_handler s (blindTask e0) fn [] now ts (.ok ws)).sheetAfter.isSome = true ∧
       (blindTask e0).uid ∈
         (submit_handler s (blindTask e0) fn [] now ts (.ok ws)).state.locally_finished)) :=
  ⟨⟨rfl, rfl⟩, empty_findings_no_crash e0 "a.png" rfl rfl⟩

/-- C10: `append_to_gsheet` returns the same value (Python's `None`) on
success and on failure, and the submit handler's resulting session state is
identical whatever the remote append did — the caller cannot observe the
outcome. -/
theorem append_result_unobservable (s : SessionState) (t : TaskRec) (fn : String)
    (sel : List (String × String)) (now : Nat) (ts : String)
    (c1 c2 : Except String Worksheet) (row : List (String × String)) :
    (append_to_gsheet c1 row).retVal = (append_to_gsheet c2 row).retVal ∧
    (submit_handler s t fn sel now ts c1).state = (submit_handler s t fn sel now ts c2).state := by
  constructor
  · cases c1 <;> cases c2 <;> rfl
  · rfl

end ConfGuide
